import Mathlib

/-!
Shallow embedding of the `RockPaperScissors` Solidity contract
(`contracts/RockPaperScissors.sol`) and, for the batch-claim surface, of the
legacy contract variant embedded in `frontend/src/contracts/contractConfig.ts`.

Modelling conventions:
* `uint256` values are `Nat`; Solidity 0.8 checked subtraction is modelled
  explicitly (underflow yields an error), and additions that cannot revert in
  the scenarios under study are plain `Nat` addition.
* Addresses are `Nat`.  Mappings are functions `Nat → _` updated pointwise.
* A transaction is a function from the pre-state (plus call parameters and
  environment data) to `Except Err _`; an `error` result models a revert, i.e.
  the whole state transition is discarded (EVM atomicity).
* The contract move produced by the keccak-based oracle is an input parameter:
  the claims quantify over the derived move, never over the hash preimage.
* The low-level outbound `call` is modelled by a boolean `callOk` (does the
  recipient accept?) together with the EVM rule that a value call with
  insufficient balance fails.
-/

namespace Shifumi

/-- Moves of the game, as in the Solidity `enum Move`. -/
inductive Move where
  | Rock
  | Paper
  | Scissors
deriving DecidableEq, Repr

/-- Bet tiers, as in the Solidity `enum BetTier`. -/
inductive BetTier where
  | TIER_1
  | TIER_2
  | TIER_3
  | TIER_4
  | TIER_5
deriving DecidableEq, Repr

/-- `struct PendingReward { uint256 amount; bool claimed; }` -/
structure PendingReward where
  amount : Nat
  claimed : Bool
deriving DecidableEq, Repr

/-- `struct PlayerStats { uint256 lastPlayTime; uint256 totalWins; }` -/
structure PlayerStats where
  lastPlayTime : Nat
  totalWins : Nat
deriving DecidableEq, Repr

/-- Revert reasons of the contract, one constructor per `require` message /
custom error / arithmetic panic reachable in the modelled functions. -/
inductive Err where
  | NotOwner              -- require(msg.sender == owner, "Not owner")
  | GamePaused            -- require(!isPaused, "Game is paused")
  | IncorrectValue        -- require(msg.value == amount, "Incorrect ETH amount sent")
  | ReentrantCall         -- require(!locked, "ReentrancyGuard: reentrant call")
  | CooldownActive        -- require(block.timestamp >= lastPlayTime + COOLDOWN, ...)
  | InvalidRewardIndex    -- error InvalidRewardIndex()
  | RewardAlreadyClaimed  -- error RewardAlreadyClaimed()
  | TransferFailed        -- error TransferFailed()
  | Underflow             -- Solidity 0.8 checked-subtraction panic
deriving DecidableEq, Repr

/-- Full storage of the contract plus its native-token balance. -/
structure State where
  locked : Bool
  owner : Nat
  creatorFees : Nat
  gameBank : Nat
  isPaused : Bool
  tierToAmount : BetTier → Nat
  playerStats : Nat → PlayerStats
  pendingRewards : Nat → List PendingReward
  balance : Nat

/-- Pointwise update of a `Nat`-keyed mapping. -/
def updFn {α : Type} (f : Nat → α) (k : Nat) (v : α) : Nat → α :=
  fun x => if x = k then v else f x

/-- `uint256 public constant COOLDOWN = 15;` -/
def COOLDOWN : Nat := 15

/-- Tier amounts set in the constructor (wei). -/
def tierAmountInit : BetTier → Nat
  | .TIER_1 => 5000000000000000    -- 0.005 ether
  | .TIER_2 => 10000000000000000   -- 0.01 ether
  | .TIER_3 => 25000000000000000   -- 0.025 ether
  | .TIER_4 => 50000000000000000   -- 0.05 ether
  | .TIER_5 => 100000000000000000  -- 0.1 ether

/-- State right after the constructor runs with deployer `deployer`
(zero balance, nothing played, unpaused, unlocked). -/
def initialState (deployer : Nat) : State where
  locked := false
  owner := deployer
  creatorFees := 0
  gameBank := 0
  isPaused := false
  tierToAmount := tierAmountInit
  playerStats := fun _ => ⟨0, 0⟩
  pendingRewards := fun _ => []
  balance := 0

/-- `_didPlayerWin`: the rock/paper/scissors beats relation. -/
def didPlayerWin (player ai : Move) : Bool :=
  (player == .Rock && ai == .Scissors) ||
  (player == .Paper && ai == .Rock) ||
  (player == .Scissors && ai == .Paper)

/-- Data carried by the `GamePlayed` event together with the post-state. -/
structure PlayOutcome where
  state : State
  result : String
  netGain : Nat

/-- `playGame(Move playerMove, BetTier tier)`, modifiers
`nonReentrant notPaused validBetAmount(tierToAmount[tier])` applied in order.
`contractMove` stands for the keccak-derived oracle move; `msgValue` is the
attached stake, credited to the balance on success (EVM value transfer). -/
def playGame (s : State) (sender msgValue now : Nat) (playerMove : Move)
    (tier : BetTier) (contractMove : Move) : Except Err PlayOutcome :=
  if s.locked then .error .ReentrantCall
  else if s.isPaused then .error .GamePaused
  else if msgValue ≠ s.tierToAmount tier then .error .IncorrectValue
  else if now < (s.playerStats sender).lastPlayTime + COOLDOWN then
    .error .CooldownActive
  else if didPlayerWin playerMove contractMove then
    -- Win: 192% pending reward (gain = 92%), 3% creator, 7% game bank
    .ok ⟨{ s with
        pendingRewards := updFn s.pendingRewards sender
          (s.pendingRewards sender
            ++ [⟨s.tierToAmount tier + s.tierToAmount tier * 92 / 100, false⟩]),
        creatorFees := s.creatorFees + s.tierToAmount tier * 3 / 100,
        gameBank := s.gameBank + s.tierToAmount tier * 7 / 100,
        playerStats := updFn s.playerStats sender
          ⟨now, (s.playerStats sender).totalWins + 1⟩,
        balance := s.balance + msgValue },
      "Win", s.tierToAmount tier * 92 / 100⟩
  else if playerMove = contractMove then
    -- Draw: refund 98%, 2% creator
    .ok ⟨{ s with
        pendingRewards := updFn s.pendingRewards sender
          (s.pendingRewards sender
            ++ [⟨s.tierToAmount tier * 98 / 100, false⟩]),
        creatorFees := s.creatorFees + s.tierToAmount tier * 2 / 100,
        playerStats := updFn s.playerStats sender
          ⟨now, (s.playerStats sender).totalWins⟩,
        balance := s.balance + msgValue }, "Draw", 0⟩
  else
    -- Lose: 3% creator, 97% game bank
    .ok ⟨{ s with
        creatorFees := s.creatorFees + s.tierToAmount tier * 3 / 100,
        gameBank := s.gameBank + s.tierToAmount tier * 97 / 100,
        playerStats := updFn s.playerStats sender
          ⟨now, (s.playerStats sender).totalWins⟩,
        balance := s.balance + msgValue }, "Lose", 0⟩

/-- Set the `claimed` flag of the entry at position `i` (identity when out of
range), as `rewards[index].claimed = true` does on the storage array. -/
def setClaimed : List PendingReward → Nat → List PendingReward
  | [], _ => []
  | r :: rs, 0 => ⟨r.amount, true⟩ :: rs
  | r :: rs, i + 1 => r :: setClaimed rs i

/-- Amount stored at position `index` of `sender`'s reward array
(0 when out of range). -/
def rewardAmountAt (s : State) (sender index : Nat) : Nat :=
  ((s.pendingRewards sender).getD index ⟨0, false⟩).amount

/-- The contract state as seen by the recipient of the outbound transfer of
`claimReward`: the entry is already marked claimed, the value has left the
balance, and the reentrancy mutex is still held. -/
def claimMidState (s : State) (sender index : Nat) : State :=
  { s with
    locked := true,
    pendingRewards := updFn s.pendingRewards sender
      (setClaimed (s.pendingRewards sender) index),
    balance := s.balance - rewardAmountAt s sender index }

/-- `claimReward(uint256 index)`, modifier `nonReentrant`.  On success returns
the post-state together with the amount carried by the `RewardClaimed` event.
`callOk` models the recipient accepting the low-level call; a value call with
insufficient balance fails regardless of `callOk`. -/
def claimReward (s : State) (sender index : Nat) (callOk : Bool) :
    Except Err (State × Nat) :=
  if s.locked then .error .ReentrantCall
  else if index < (s.pendingRewards sender).length then
    if ((s.pendingRewards sender).getD index ⟨0, false⟩).claimed then
      .error .RewardAlreadyClaimed
    else if callOk ∧ rewardAmountAt s sender index ≤ s.balance then
      .ok ({ claimMidState s sender index with locked := false },
        rewardAmountAt s sender index)
    else .error .TransferFailed
  else .error .InvalidRewardIndex

/-- `withdrawCreatorFees()`, modifiers `nonReentrant onlyOwner`.  Returns the
post-state with the amount of the `CreatorFeesWithdrawn` event. -/
def withdrawCreatorFees (s : State) (sender : Nat) (callOk : Bool) :
    Except Err (State × Nat) :=
  if s.locked then .error .ReentrantCall
  else if sender ≠ s.owner then .error .NotOwner
  else if callOk ∧ s.creatorFees ≤ s.balance then
    .ok ({ s with creatorFees := 0, balance := s.balance - s.creatorFees },
      s.creatorFees)
  else .error .TransferFailed

/-- `setPaused(bool status)`, modifier `onlyOwner`. -/
def setPaused (s : State) (sender : Nat) (status : Bool) : Except Err State :=
  if sender ≠ s.owner then .error .NotOwner
  else .ok { s with isPaused := status }

/-- `emergencyWithdraw()`, modifier `onlyOwner` (note: the source has no
pause-state requirement).  Sweeps `address(this).balance` to the owner;
returns the amount of the `EmergencyWithdrawal` event.  The sweep transfers
the entire balance, so insufficient balance cannot occur. -/
def emergencyWithdraw (s : State) (sender : Nat) (callOk : Bool) :
    Except Err (State × Nat) :=
  if sender ≠ s.owner then .error .NotOwner
  else if callOk then .ok ({ s with balance := 0 }, s.balance)
  else .error .TransferFailed

/-- `syncGameBank()`, modifier `onlyOwner`.  `totalBalance - creatorFees` is a
Solidity 0.8 checked subtraction: it reverts when `creatorFees` exceeds the
balance. -/
def syncGameBank (s : State) (sender : Nat) : Except Err State :=
  if sender ≠ s.owner then .error .NotOwner
  else if s.balance < s.creatorFees then .error .Underflow
  else .ok { s with gameBank := s.balance - s.creatorFees }

/-- `receive() external payable { gameBank += msg.value; }` (the payable
`addFunds()` has the same effect). -/
def receiveEth (s : State) (msgValue : Nat) : State :=
  { s with gameBank := s.gameBank + msgValue, balance := s.balance + msgValue }

/-- Total amount of the unclaimed entries of one reward array. -/
def unclaimedTotal (rs : List PendingReward) : Nat :=
  (rs.filter (fun r => !r.claimed)).foldl (fun acc r => acc + r.amount) 0

/-- Outstanding liability of the ledger over a given list of player addresses:
unclaimed reward amounts plus `creatorFees` plus `gameBank`. -/
def liabilityOver (s : State) (addrs : List Nat) : Nat :=
  addrs.foldl (fun acc a => acc + unclaimedTotal (s.pendingRewards a)) 0
    + s.creatorFees + s.gameBank

/-- Does an `Except` result denote a committed (non-reverted) transaction? -/
def isOk {ε α : Type} : Except ε α → Bool
  | .ok _ => true
  | .error _ => false

/-!
Legacy contract variant.  The repository's frontend configuration file
(`frontend/src/contracts/contractConfig.ts`) carries the source of an older
`RockPaperScissors` contract; it is the only code in the repository with a
batch-claim entry point, `claimAllRewards()`.  Its storage has no reentrancy
mutex at all.
-/

/-- Storage of the legacy contract variant plus its balance.  Note the absence
of any `locked` mutex field. -/
structure LegacyState where
  owner : Nat
  creatorFees : Nat
  gameBank : Nat
  isPaused : Bool
  tierToAmount : BetTier → Nat
  lastPlayTimestamp : Nat → Nat
  pendingRewards : Nat → List PendingReward
  playerTotalWins : Nat → Nat
  balance : Nat

/-- Revert reasons reachable in `claimAllRewards`. -/
inductive LegacyErr where
  | NoUnclaimedRewards   -- require(totalToClaim > 0, "No unclaimed rewards")
  | InsufficientBalance  -- require(address(this).balance >= totalToClaim, ...)
  | ClaimFailed          -- require(success, "Claim failed")
deriving DecidableEq, Repr

/-- Effect of the marking loop of `claimAllRewards` on one reward array:
every unclaimed entry becomes claimed. -/
def markAllClaimed (rs : List PendingReward) : List PendingReward :=
  rs.map (fun r => if r.claimed then r else ⟨r.amount, true⟩)

/-- `type(uint256).max`, the index carried by the `RewardClaimed` event of a
batch claim. -/
def SENTINEL_ALL : Nat := 2 ^ 256 - 1

/-- `claimAllRewards()` of the legacy contract variant.  The source loops over
the caller's reward array, summing and marking the unclaimed entries, then
requires a positive total and a sufficient balance before one outbound call;
a revert discards the markings.  Returns post-state, event index (the
sentinel) and event amount. -/
def legacy_claimAllRewards (s : LegacyState) (sender : Nat) (callOk : Bool) :
    Except LegacyErr (LegacyState × Nat × Nat) :=
  if unclaimedTotal (s.pendingRewards sender) = 0 then
    .error .NoUnclaimedRewards
  else if s.balance < unclaimedTotal (s.pendingRewards sender) then
    .error .InsufficientBalance
  else if callOk then
    .ok ({ s with
        pendingRewards := updFn s.pendingRewards sender
          (markAllClaimed (s.pendingRewards sender)),
        balance := s.balance - unclaimedTotal (s.pendingRewards sender) },
      SENTINEL_ALL, unclaimedTotal (s.pendingRewards sender))
  else .error .ClaimFailed

/-!  Concrete scenario states used by witnesses and counterexamples.  -/

/-- Outcome of a TIER_1 win played on a freshly deployed contract: player 7
plays Rock at time 15 and the oracle draws Scissors. -/
def demoWinOutcome : PlayOutcome :=
  ((playGame (initialState 0) 7 5000000000000000 15 Move.Rock
      BetTier.TIER_1 Move.Scissors).toOption).getD ⟨initialState 0, "", 0⟩

/-- A state in which player 7 holds one claimable reward of 40 (index 0) and
one already-claimed reward of 60 (index 1), with 100 in custody. -/
def demoClaimState : State :=
  { initialState 0 with
    pendingRewards := updFn (fun _ => []) 7 [⟨40, false⟩, ⟨60, true⟩],
    balance := 100 }

/-- `demoClaimState` with custody too small to honour the index-0 reward. -/
def demoPoorState : State :=
  { demoClaimState with balance := 30 }

/-- An unpaused state holding 12345 in custody. -/
def demoUnpausedState : State :=
  { initialState 0 with balance := 12345 }

/-- Legacy-variant state in which player 7 has no reward entries. -/
def demoLegacyEmpty : LegacyState where
  owner := 0
  creatorFees := 0
  gameBank := 0
  isPaused := false
  tierToAmount := tierAmountInit
  lastPlayTimestamp := fun _ => 0
  pendingRewards := fun _ => []
  playerTotalWins := fun _ => 0
  balance := 1000

/-- Legacy-variant state in which player 7 has two unclaimed rewards (10 and
7) around a claimed one (5), with 20 in custody. -/
def demoLegacyState : LegacyState :=
  { demoLegacyEmpty with
    pendingRewards := updFn (fun _ => []) 7 [⟨10, false⟩, ⟨5, true⟩, ⟨7, false⟩],
    balance := 20 }

/-- `demoClaimState` with the reentrancy mutex held. -/
def demoLockedState : State :=
  { demoClaimState with locked := true }

/-- A state owing more creator fees (10) than it holds in custody (3). -/
def demoFeeHeavyState : State :=
  { initialState 0 with creatorFees := 10, balance := 3 }

/-- A state owing fewer creator fees (2) than it holds in custody (10). -/
def demoFeeLightState : State :=
  { initialState 0 with creatorFees := 2, balance := 10 }

/-!  Claim theorems.  -/

/-- Inversion on a committed `claimReward`: the exact post-state and event
amount, and the truth of every guard along the success path. -/
theorem claimReward_ok_inv (s : State) (sender index : Nat) (callOk : Bool)
    (s' : State) (amt : Nat)
    (hok : claimReward s sender index callOk = .ok (s', amt)) :
    s' = { claimMidState s sender index with locked := false } ∧
    amt = rewardAmountAt s sender index ∧
    s.locked = false ∧
    index < (s.pendingRewards sender).length ∧
    ((s.pendingRewards sender).getD index ⟨0, false⟩).claimed = false ∧
    callOk = true ∧
    rewardAmountAt s sender index ≤ s.balance := by
  unfold claimReward at hok
  by_cases hl : s.locked = true
  · rw [if_pos hl] at hok
    exact absurd hok (by simp)
  · rw [if_neg hl] at hok
    by_cases hin : index < (s.pendingRewards sender).length
    · rw [if_pos hin] at hok
      by_cases hcl : ((s.pendingRewards sender).getD index ⟨0, false⟩).claimed = true
      · rw [if_pos hcl] at hok
        exact absurd hok (by simp)
      · rw [if_neg hcl] at hok
        by_cases hco : callOk = true ∧ rewardAmountAt s sender index ≤ s.balance
        · rw [if_pos hco] at hok
          injection hok with h
          injection h with hs ha
          exact ⟨hs.symm, ha.symm, by simpa using hl, hin, by simpa using hcl,
            hco.1, hco.2⟩
        · rw [if_neg hco] at hok
          exact absurd hok (by simp)
    · rw [if_neg hin] at hok
      exact absurd hok (by simp)

/-- Claim C1: every committed `playGame` whose outcome is a Win (the player's
move beats the derived contract move), with stake `S = tierToAmount[tier]`,
appends exactly one unclaimed `PendingReward` of `S + S*92/100` to the
caller's reward array, adds `S*3/100` to `creatorFees`, `S*7/100` to
`gameBank`, one to the caller's `totalWins`, and reports a net gain of
`S*92/100` (all divisions truncating). -/
theorem c1_win_accounting
    (s : State) (sender msgValue now : Nat) (playerMove : Move)
    (tier : BetTier) (contractMove : Move) (r : PlayOutcome)
    (hok : playGame s sender msgValue now playerMove tier contractMove = .ok r)
    (hwin : didPlayerWin playerMove contractMove = true) :
    r.state.pendingRewards sender
      = s.pendingRewards sender
        ++ [⟨s.tierToAmount tier + s.tierToAmount tier * 92 / 100, false⟩] ∧
    r.state.creatorFees = s.creatorFees + s.tierToAmount tier * 3 / 100 ∧
    r.state.gameBank = s.gameBank + s.tierToAmount tier * 7 / 100 ∧
    (r.state.playerStats sender).totalWins
      = (s.playerStats sender).totalWins + 1 ∧
    r.netGain = s.tierToAmount tier * 92 / 100 := by
  unfold playGame at hok
  split at hok
  · simp at hok
  split at hok
  · simp at hok
  split at hok
  · simp at hok
  split at hok
  · simp at hok
  injection hok with h
  subst h
  refine ⟨?_, rfl, rfl, ?_, rfl⟩ <;> simp [updFn]

/-- Witness for C1 at the demo win scenario: the reward is 0.0096 ether, the
fee delta 0.00015 ether, the bank delta 0.00035 ether, one win, net gain
0.0046 ether — the numbers of the spec's example. -/
theorem c1_win_accounting_witness :
    playGame (initialState 0) 7 5000000000000000 15 Move.Rock
        BetTier.TIER_1 Move.Scissors = .ok demoWinOutcome ∧
    demoWinOutcome.state.pendingRewards 7 = [⟨9600000000000000, false⟩] ∧
    demoWinOutcome.state.creatorFees = 150000000000000 ∧
    demoWinOutcome.state.gameBank = 350000000000000 ∧
    (demoWinOutcome.state.playerStats 7).totalWins = 1 ∧
    demoWinOutcome.netGain = 4600000000000000 := by
  have h := c1_win_accounting (initialState 0) 7 5000000000000000 15
    Move.Rock BetTier.TIER_1 Move.Scissors demoWinOutcome rfl rfl
  exact ⟨rfl, by simpa [initialState, tierAmountInit] using h⟩

/-- Marking position `i` of a reward array leaves the entry there claimed. -/
theorem setClaimed_getD_claimed (rs : List PendingReward) (i : Nat)
    (h : i < rs.length) (d : PendingReward) :
    ((setClaimed rs i).getD i d).claimed = true := by
  induction rs generalizing i with
  | nil => simp at h
  | cons r rs ih =>
    cases i with
    | zero => rfl
    | succ n =>
      simpa [setClaimed] using ih n (by simpa using h)

/-- Claim C2: `claimReward(index)` reverts with `InvalidRewardIndex` when
`index` is out of range, with `RewardAlreadyClaimed` when the entry is
already claimed, and with `TransferFailed` when the outbound call fails (a
revert discards every mutation, the claimed flag included); a committed claim
leaves the entry claimed with exactly its amount debited from custody. -/
theorem c2_claim_error_paths (s : State) (sender index : Nat) (callOk : Bool)
    (hnl : s.locked = false) :
    ((s.pendingRewards sender).length ≤ index →
      claimReward s sender index callOk = .error .InvalidRewardIndex) ∧
    (index < (s.pendingRewards sender).length →
      ((s.pendingRewards sender).getD index ⟨0, false⟩).claimed = true →
      claimReward s sender index callOk = .error .RewardAlreadyClaimed) ∧
    (index < (s.pendingRewards sender).length →
      ((s.pendingRewards sender).getD index ⟨0, false⟩).claimed = false →
      callOk = false →
      claimReward s sender index callOk = .error .TransferFailed) ∧
    (∀ s' amt, claimReward s sender index callOk = .ok (s', amt) →
      ((s'.pendingRewards sender).getD index ⟨0, false⟩).claimed = true ∧
      s'.balance + amt = s.balance) := by
  refine ⟨?_, ?_, ?_, ?_⟩
  · intro hlen
    simp [claimReward, hnl, Nat.not_lt.mpr hlen]
  · intro hin hcl
    have hcl2 : (s.pendingRewards sender)[index].claimed = true := by
      rw [← List.getD_eq_getElem (s.pendingRewards sender) ⟨0, false⟩ hin]
      exact hcl
    simp [claimReward, hnl, hin, hcl2]
  · intro hin hcl hko
    have hcl2 : (s.pendingRewards sender)[index].claimed = false := by
      rw [← List.getD_eq_getElem (s.pendingRewards sender) ⟨0, false⟩ hin]
      exact hcl
    simp [claimReward, hnl, hin, hcl2, hko]
  · intro s' amt hok
    unfold claimReward at hok
    rw [if_neg (by simp [hnl])] at hok
    by_cases hin : index < (s.pendingRewards sender).length
    · rw [if_pos hin] at hok
      by_cases hcl : ((s.pendingRewards sender).getD index ⟨0, false⟩).claimed = true
      · rw [if_pos hcl] at hok
        exact absurd hok (by simp)
      · rw [if_neg hcl] at hok
        by_cases hco : callOk = true ∧ rewardAmountAt s sender index ≤ s.balance
        · rw [if_pos hco] at hok
          injection hok with h
          injection h with hs ha
          subst hs
          subst ha
          refine ⟨?_, ?_⟩
          · simpa [claimMidState, updFn] using
              setClaimed_getD_claimed (s.pendingRewards sender) index hin ⟨0, false⟩
          · simpa [claimMidState] using Nat.sub_add_cancel hco.2
        · rw [if_neg hco] at hok
          exact absurd hok (by simp)
    · rw [if_neg hin] at hok
      exact absurd hok (by simp)

/-- Witness for C2: in `demoClaimState` (rewards `[40 unclaimed, 60 claimed]`,
custody 100) index 5 is rejected out of range, index 1 as already claimed,
index 0 with a refusing recipient as `TransferFailed`; the committed claim of
index 0 leaves the entry claimed and custody debited by 40. -/
theorem c2_claim_error_paths_witness :
    claimReward demoClaimState 7 5 true = .error .InvalidRewardIndex ∧
    claimReward demoClaimState 7 1 true = .error .RewardAlreadyClaimed ∧
    claimReward demoClaimState 7 0 false = .error .TransferFailed ∧
    ((({ claimMidState demoClaimState 7 0 with locked := false } :
        State).pendingRewards 7).getD 0 ⟨0, false⟩).claimed = true ∧
    ({ claimMidState demoClaimState 7 0 with locked := false } :
        State).balance + 40 = demoClaimState.balance := by
  have h5 := c2_claim_error_paths demoClaimState 7 5 true rfl
  have h1 := c2_claim_error_paths demoClaimState 7 1 true rfl
  have h0f := c2_claim_error_paths demoClaimState 7 0 false rfl
  have h0t := (c2_claim_error_paths demoClaimState 7 0 true rfl).2.2.2
    { claimMidState demoClaimState 7 0 with locked := false } 40 rfl
  exact ⟨h5.1 (by decide), h1.2.1 (by decide) (by decide),
    h0f.2.2.1 (by decide) (by decide) rfl, h0t.1, h0t.2⟩

/-- Counterexample to claim C3: on a freshly deployed (empty) contract a
single committed winning wager of stake 0.005 ether leaves outstanding
liability 0.0101 ether (reward 0.0096 + fees 0.00015 + bank 0.00035) against
a custodied balance of only 0.005 ether, so the claimed conservation
inequality fails right after a successfully committed operation. -/
theorem c3_conservation_counterexample :
    playGame (initialState 0) 7 5000000000000000 15 Move.Rock
        BetTier.TIER_1 Move.Scissors = .ok demoWinOutcome ∧
    liabilityOver demoWinOutcome.state [7] = 10100000000000000 ∧
    demoWinOutcome.state.balance = 5000000000000000 ∧
    ¬ liabilityOver demoWinOutcome.state [7] ≤ demoWinOutcome.state.balance :=
  ⟨rfl, rfl, rfl, by decide⟩

/-- Claim C3 (amended): the liability sum can exceed custody (a Win adds
roughly `2.02·S` of liability against an `S` deposit), but custody is never
overdrawn: a committed claim debits exactly its amount, which never exceeds
the custodied balance, and a claim whose amount exceeds custody fails with
`TransferFailed` — under-funding surfaces as a claim failure, never as a
silent under-payment. -/
theorem c3_amended_custody_bound (s : State) (sender index : Nat)
    (callOk : Bool) :
    (∀ s' amt, claimReward s sender index callOk = .ok (s', amt) →
      amt ≤ s.balance ∧ s'.balance + amt = s.balance) ∧
    (s.locked = false →
      index < (s.pendingRewards sender).length →
      ((s.pendingRewards sender).getD index ⟨0, false⟩).claimed = false →
      s.balance < rewardAmountAt s sender index →
      claimReward s sender index callOk = .error .TransferFailed) := by
  constructor
  · intro s' amt hok
    obtain ⟨hs, ha, -, -, -, -, hle⟩ :=
      claimReward_ok_inv s sender index callOk s' amt hok
    subst hs
    subst ha
    exact ⟨hle, by simpa [claimMidState] using Nat.sub_add_cancel hle⟩
  · intro hnl hin hcl hlt
    have hcl2 : (s.pendingRewards sender)[index].claimed = false := by
      rw [← List.getD_eq_getElem (s.pendingRewards sender) ⟨0, false⟩ hin]
      exact hcl
    have hno : ¬ rewardAmountAt s sender index ≤ s.balance := Nat.not_le.mpr hlt
    simp [claimReward, hnl, hin, hcl2, hno]

/-- Witness for the amended C3: the committed claim in `demoClaimState`
debits exactly 40 of the 100 in custody, and the same claim in
`demoPoorState` (custody 30 < reward 40) fails with `TransferFailed`. -/
theorem c3_amended_custody_bound_witness :
    (40 ≤ demoClaimState.balance ∧
      ({ claimMidState demoClaimState 7 0 with locked := false } :
        State).balance + 40 = demoClaimState.balance) ∧
    claimReward demoPoorState 7 0 true = .error .TransferFailed := by
  have h := (c3_amended_custody_bound demoClaimState 7 0 true).1
    { claimMidState demoClaimState 7 0 with locked := false } 40 rfl
  have h2 := (c3_amended_custody_bound demoPoorState 7 0 true).2 rfl
    (by decide) (by decide) (by decide)
  exact ⟨h, h2⟩

/-- The entry appended by `++ [a]` sits at the old length. -/
theorem getD_concat (l : List PendingReward) (a d : PendingReward) :
    (l ++ [a]).getD l.length d = a := by
  induction l with
  | nil => rfl
  | cons x xs ih => simp [ih]

/-- Percentage splits are exact on stakes divisible by 100. -/
theorem hundred_mul_div_exact (k m : Nat) : 100 * k * m / 100 = k * m := by
  rw [Nat.mul_assoc, Nat.mul_div_cancel_left (k * m) (by norm_num)]

/-- Counterexample to claim C4: at the demo win (stake `S` = 0.005 ether) the
appended reward amount plus the fee and bank increases is 0.0101 ether,
whereas `S * 102 / 100` is 0.0051 ether — the claimed identity holds for the
reported net gain, not for the `PendingReward` amount. -/
theorem c4_split_counterexample :
    playGame (initialState 0) 7 5000000000000000 15 Move.Rock
        BetTier.TIER_1 Move.Scissors = .ok demoWinOutcome ∧
    rewardAmountAt demoWinOutcome.state 7 0 = 9600000000000000 ∧
    demoWinOutcome.state.creatorFees = 150000000000000 ∧
    demoWinOutcome.state.gameBank = 350000000000000 ∧
    5000000000000000 * 102 / 100 = 5100000000000000 ∧
    ¬ (9600000000000000 + 150000000000000 + 350000000000000
        = 5100000000000000) :=
  ⟨rfl, rfl, rfl, rfl, rfl, by norm_num⟩

/-- Claim C4 (amended): for every resolved Win with stake `S` divisible by
100, the appended `PendingReward` amount plus the `creatorFees` increase plus
the `gameBank` increase equals `S * 202 / 100`; the spec's `S * 102 / 100`
identity holds with the reported net gain in place of the reward amount. -/
theorem c4_amended_win_split
    (s : State) (sender msgValue now : Nat) (playerMove : Move)
    (tier : BetTier) (contractMove : Move) (r : PlayOutcome)
    (hok : playGame s sender msgValue now playerMove tier contractMove = .ok r)
    (hwin : didPlayerWin playerMove contractMove = true)
    (hdvd : 100 ∣ s.tierToAmount tier) :
    rewardAmountAt r.state sender (s.pendingRewards sender).length
        + (r.state.creatorFees - s.creatorFees)
        + (r.state.gameBank - s.gameBank)
      = s.tierToAmount tier * 202 / 100 ∧
    r.netGain + (r.state.creatorFees - s.creatorFees)
        + (r.state.gameBank - s.gameBank)
      = s.tierToAmount tier * 102 / 100 := by
  unfold playGame at hok
  split at hok
  · simp at hok
  split at hok
  · simp at hok
  split at hok
  · simp at hok
  split at hok
  · simp at hok
  injection hok with h
  subst h
  obtain ⟨k, hk⟩ := hdvd
  constructor
  · simp only [rewardAmountAt, updFn, eq_self_iff_true, if_true, getD_concat,
      Nat.add_sub_cancel_left]
    rw [hk]
    simp only [hundred_mul_div_exact]
    omega
  · simp only [Nat.add_sub_cancel_left]
    rw [hk]
    simp only [hundred_mul_div_exact]
    omega

/-- Witness for the amended C4 at the demo win: both identities hold at the
TIER_1 stake of 0.005 ether. -/
theorem c4_amended_win_split_witness :
    rewardAmountAt demoWinOutcome.state 7
        ((initialState 0).pendingRewards 7).length
        + (demoWinOutcome.state.creatorFees - (initialState 0).creatorFees)
        + (demoWinOutcome.state.gameBank - (initialState 0).gameBank)
      = (initialState 0).tierToAmount BetTier.TIER_1 * 202 / 100 ∧
    demoWinOutcome.netGain
        + (demoWinOutcome.state.creatorFees - (initialState 0).creatorFees)
        + (demoWinOutcome.state.gameBank - (initialState 0).gameBank)
      = (initialState 0).tierToAmount BetTier.TIER_1 * 102 / 100 :=
  c4_amended_win_split (initialState 0) 7 5000000000000000 15 Move.Rock
    BetTier.TIER_1 Move.Scissors demoWinOutcome rfl rfl ⟨50000000000000, rfl⟩

/-- Counterexample to claim C5: `emergencyWithdraw` invoked by the
administrator succeeds and sweeps the whole balance in a state with
`isPaused = false` — the source has no pause-state requirement. -/
theorem c5_pause_counterexample :
    demoUnpausedState.isPaused = false ∧
    emergencyWithdraw demoUnpausedState 0 true
      = .ok ({ demoUnpausedState with balance := 0 }, 12345) :=
  ⟨rfl, rfl⟩

/-- Claim C5 (amended): `emergencyWithdraw`, invoked by the administrator,
sweeps the entire custodied balance to the administrator regardless of the
pause state; the code does not require `isPaused == true`. -/
theorem c5_amended_sweep (s : State) (sender : Nat) (h : sender = s.owner) :
    emergencyWithdraw { s with isPaused := false } sender true
      = .ok ({ s with isPaused := false, balance := 0 }, s.balance) ∧
    emergencyWithdraw { s with isPaused := true } sender true
      = .ok ({ s with isPaused := true, balance := 0 }, s.balance) := by
  subst h
  constructor <;> simp [emergencyWithdraw]

/-- Witness for the amended C5 at custody 12345, owner calling. -/
theorem c5_amended_sweep_witness :
    emergencyWithdraw { demoUnpausedState with isPaused := false } 0 true
      = .ok ({ demoUnpausedState with isPaused := false, balance := 0 },
        demoUnpausedState.balance) ∧
    emergencyWithdraw { demoUnpausedState with isPaused := true } 0 true
      = .ok ({ demoUnpausedState with isPaused := true, balance := 0 },
        demoUnpausedState.balance) :=
  c5_amended_sweep demoUnpausedState 0 rfl

/-- Claim C6: entering any guarded operation while the mutex is held yields
`ReentrantCall` (and, the transition being all-or-nothing, no state change);
every committed guarded operation releases the mutex; a recipient re-invoking
`claimReward` from inside the outbound transfer (where the mutex is still
held and the entry already claimed) is rejected, while the outer claim
commits exactly once with the entry claimed and the amount debited. -/
theorem c6_reentrancy_guard (s : State) (sender index : Nat) (callOk : Bool) :
    (s.locked = true →
      claimReward s sender index callOk = .error .ReentrantCall) ∧
    (s.locked = true →
      withdrawCreatorFees s sender callOk = .error .ReentrantCall) ∧
    (∀ s' amt, claimReward s sender index callOk = .ok (s', amt) →
      s'.locked = false) ∧
    (∀ a2 i2 ok2, claimReward (claimMidState s sender index) a2 i2 ok2
      = .error .ReentrantCall) ∧
    (s.locked = false →
      index < (s.pendingRewards sender).length →
      ((s.pendingRewards sender).getD index ⟨0, false⟩).claimed = false →
      rewardAmountAt s sender index ≤ s.balance →
      claimReward s sender index true
        = .ok ({ claimMidState s sender index with locked := false },
            rewardAmountAt s sender index)) := by
  refine ⟨?_, ?_, ?_, ?_, ?_⟩
  · intro h
    simp [claimReward, h]
  · intro h
    simp [withdrawCreatorFees, h]
  · intro s' amt hok
    obtain ⟨hs, -, -, -, -, -, -⟩ :=
      claimReward_ok_inv s sender index callOk s' amt hok
    subst hs
    rfl
  · intro a2 i2 ok2
    simp [claimReward, claimMidState]
  · intro hnl hin hcl hle
    unfold claimReward
    rw [if_neg (by simp [hnl]), if_pos hin,
      if_neg (by rw [hcl]; exact Bool.false_ne_true),
      if_pos ⟨rfl, hle⟩]

/-- Witness for C6 in the demo claim scenario: a held mutex rejects both
`claimReward` and `withdrawCreatorFees`; the mid-transfer state rejects the
nested claim; the outer claim commits with the mutex released. -/
theorem c6_reentrancy_guard_witness :
    claimReward demoLockedState 7 0 true = .error .ReentrantCall ∧
    withdrawCreatorFees demoLockedState 7 true = .error .ReentrantCall ∧
    ({ claimMidState demoClaimState 7 0 with locked := false } :
      State).locked = false ∧
    claimReward (claimMidState demoClaimState 7 0) 7 1 true
      = .error .ReentrantCall ∧
    claimReward demoClaimState 7 0 true
      = .ok ({ claimMidState demoClaimState 7 0 with locked := false },
          rewardAmountAt demoClaimState 7 0) := by
  have hL := c6_reentrancy_guard demoLockedState 7 0 true
  have hU := c6_reentrancy_guard demoClaimState 7 0 true
  exact ⟨hL.1 rfl, hL.2.1 rfl,
    hU.2.2.1 { claimMidState demoClaimState 7 0 with locked := false }
      (rewardAmountAt demoClaimState 7 0) rfl,
    hU.2.2.2.1 7 1 true,
    hU.2.2.2.2 rfl (by decide) (by decide) (by decide)⟩

/-- Counterexample to claim C7: the only batch-claim in the repository is
`claimAllRewards()` of the legacy contract variant; it reverts with
`"No unclaimed rewards"` for a caller with no unclaimed entries instead of
performing the (empty) batch and zero transfer the claim describes — and the
legacy variant's storage has no reentrancy mutex, so the operation is not
guarded; the synchronous contract has no batch-claim at all. -/
theorem c7_batch_claim_counterexample :
    demoLegacyEmpty.pendingRewards 7 = [] ∧
    legacy_claimAllRewards demoLegacyEmpty 7 true
      = .error .NoUnclaimedRewards :=
  ⟨rfl, rfl⟩

/-- Every entry is claimed after the marking loop of `claimAllRewards`. -/
theorem markAllClaimed_all (rs : List PendingReward) :
    (markAllClaimed rs).all (fun r => r.claimed) = true := by
  induction rs with
  | nil => rfl
  | cons r rs ih =>
    cases hr : r.claimed
    · simpa [markAllClaimed, hr] using ih
    · simpa [markAllClaimed, hr] using ih

/-- Claim C7 (amended): the batch claim exists only as `claimAllRewards()` of
the legacy, unguarded contract variant; when the caller has a positive
unclaimed total covered by the custodied balance, one operation marks every
unclaimed entry claimed, performs a single outbound transfer of the total and
emits one claim event carrying the sentinel index `2^256 - 1`; with no
unclaimed entries it reverts. -/
theorem c7_amended_batch (s : LegacyState) (sender : Nat)
    (h0 : unclaimedTotal (s.pendingRewards sender) ≠ 0)
    (hb : unclaimedTotal (s.pendingRewards sender) ≤ s.balance) :
    legacy_claimAllRewards s sender true
      = .ok ({ s with
          pendingRewards := updFn s.pendingRewards sender
            (markAllClaimed (s.pendingRewards sender)),
          balance := s.balance - unclaimedTotal (s.pendingRewards sender) },
        SENTINEL_ALL, unclaimedTotal (s.pendingRewards sender)) ∧
    (markAllClaimed (s.pendingRewards sender)).all (fun r => r.claimed)
      = true ∧
    SENTINEL_ALL = 2 ^ 256 - 1 := by
  refine ⟨?_, markAllClaimed_all _, rfl⟩
  simp [legacy_claimAllRewards, h0, Nat.not_lt.mpr hb]

/-- Witness for the amended C7: player 7 holds unclaimed rewards 10 and 7
around a claimed 5; the batch claim commits, transfers 17 and marks all. -/
theorem c7_amended_batch_witness :
    unclaimedTotal (demoLegacyState.pendingRewards 7) = 17 ∧
    legacy_claimAllRewards demoLegacyState 7 true
      = .ok ({ demoLegacyState with
          pendingRewards := updFn demoLegacyState.pendingRewards 7
            (markAllClaimed (demoLegacyState.pendingRewards 7)),
          balance := demoLegacyState.balance
            - unclaimedTotal (demoLegacyState.pendingRewards 7) },
        SENTINEL_ALL, unclaimedTotal (demoLegacyState.pendingRewards 7)) ∧
    (markAllClaimed (demoLegacyState.pendingRewards 7)).all
      (fun r => r.claimed) = true := by
  have h := c7_amended_batch demoLegacyState 7 (by decide) (by decide)
  exact ⟨rfl, h.1, h.2.1⟩

/-- No move beats itself. -/
theorem didPlayerWin_self (m : Move) : didPlayerWin m m = false := by
  cases m <;> rfl

/-- Claim C8: with the other preconditions holding (mutex free, not paused,
attached value equal to the tier stake), a wager strictly before
`lastPlayTime + COOLDOWN` reverts with the cooldown `require`, and a wager at
or after the boundary commits. -/
theorem c8_cooldown_gate (s : State) (sender now : Nat) (mv : Move)
    (tier : BetTier) (cm : Move)
    (hl : s.locked = false) (hp : s.isPaused = false) :
    (now < (s.playerStats sender).lastPlayTime + COOLDOWN →
      playGame s sender (s.tierToAmount tier) now mv tier cm
        = .error .CooldownActive) ∧
    ((s.playerStats sender).lastPlayTime + COOLDOWN ≤ now →
      isOk (playGame s sender (s.tierToAmount tier) now mv tier cm)
        = true) := by
  constructor
  · intro h
    simp [playGame, hl, hp, h]
  · intro h
    have hnlt := Nat.not_lt.mpr h
    cases hw : didPlayerWin mv cm with
    | true => simp [playGame, hl, hp, hnlt, hw, isOk]
    | false =>
      by_cases he : mv = cm
      · simp [playGame, hl, hp, hnlt, he, didPlayerWin_self, isOk]
      · simp [playGame, hl, hp, hnlt, hw, he, isOk]

/-- Witness for C8 on a fresh contract (`lastPlayTime = 0`, cooldown 15): a
wager at time 3 reverts with the cooldown message, one at exactly 15
commits. -/
theorem c8_cooldown_gate_witness :
    playGame (initialState 0) 7 ((initialState 0).tierToAmount BetTier.TIER_1)
        3 Move.Rock BetTier.TIER_1 Move.Scissors = .error .CooldownActive ∧
    isOk (playGame (initialState 0) 7
        ((initialState 0).tierToAmount BetTier.TIER_1)
        15 Move.Rock BetTier.TIER_1 Move.Scissors) = true :=
  ⟨(c8_cooldown_gate (initialState 0) 7 3 Move.Rock BetTier.TIER_1
      Move.Scissors rfl rfl).1 (by decide),
   (c8_cooldown_gate (initialState 0) 7 15 Move.Rock BetTier.TIER_1
      Move.Scissors rfl rfl).2 (by decide)⟩

/-- Claim C9: `playGame` is wrapped by the same global mutex as the
claim/withdraw operations, so it reverts with the reentrancy message whenever
the mutex is held — in particular from inside the outbound transfer of a
claim, even though resolution itself performs no outbound transfer. -/
theorem c9_playGame_guarded (s : State) (sender msgValue now : Nat)
    (mv : Move) (tier : BetTier) (cm : Move) :
    (s.locked = true →
      playGame s sender msgValue now mv tier cm = .error .ReentrantCall) ∧
    (∀ a i, playGame (claimMidState s a i) sender msgValue now mv tier cm
      = .error .ReentrantCall) := by
  constructor
  · intro h
    simp [playGame, h]
  · intro a i
    simp [playGame, claimMidState]

/-- Witness for C9: a locked state and the mid-transfer state of the demo
claim both reject a wager submission. -/
theorem c9_playGame_guarded_witness :
    playGame demoLockedState 7 5000000000000000 15 Move.Rock BetTier.TIER_1
      Move.Scissors = .error .ReentrantCall ∧
    playGame (claimMidState demoClaimState 7 0) 7 5000000000000000 30
      Move.Rock BetTier.TIER_1 Move.Scissors = .error .ReentrantCall :=
  ⟨(c9_playGame_guarded demoLockedState 7 5000000000000000 15 Move.Rock
      BetTier.TIER_1 Move.Scissors).1 rfl,
   (c9_playGame_guarded demoClaimState 7 5000000000000000 30 Move.Rock
      BetTier.TIER_1 Move.Scissors).2 7 0⟩

/-- Claim C10: `syncGameBank`, invoked by the administrator, reverts (checked
subtraction underflow, hence no state change) whenever `creatorFees` exceeds
the custodied balance; otherwise it sets `gameBank` to exactly the balance
minus `creatorFees` and leaves `creatorFees` (and everything else)
unchanged. -/
theorem c10_syncGameBank (s : State) (sender : Nat) (h : sender = s.owner) :
    (s.balance < s.creatorFees → syncGameBank s sender = .error .Underflow) ∧
    (s.creatorFees ≤ s.balance →
      syncGameBank s sender
        = .ok { s with gameBank := s.balance - s.creatorFees }) := by
  subst h
  constructor
  · intro hlt
    simp [syncGameBank, hlt]
  · intro hle
    simp [syncGameBank, Nat.not_lt.mpr hle]

/-- Witness for C10: fees 10 against custody 3 revert; fees 2 against custody
10 commit with `gameBank = 8` and fees untouched. -/
theorem c10_syncGameBank_witness :
    syncGameBank demoFeeHeavyState 0 = .error .Underflow ∧
    syncGameBank demoFeeLightState 0
      = .ok { demoFeeLightState with
          gameBank := demoFeeLightState.balance
            - demoFeeLightState.creatorFees } :=
  ⟨(c10_syncGameBank demoFeeHeavyState 0 rfl).1 (by decide),
   (c10_syncGameBank demoFeeLightState 0 rfl).2 (by decide)⟩

end Shifumi

